import Mathlib

/-!
Verification of the scheduling core of the gym-management system: the
session/reservation service (Go, gRPC, PostgreSQL) and the REST gateway's
error translation.  The relational store, the `CreateSession` handler and
the gateway's `handleGrpcError` are embedded directly from the source;
the reservation admission, cancellation and session-update operations are
modelled from the specification, since only their schema, declarations
and gateway callers appear in the source tree.
-/

deriving instance DecidableEq for Except

namespace GymSpec

/-- gRPC status codes used by the session service and distinguished by the
gateway's error handler. -/
inductive ErrCode where
  | invalidArgument
  | notFound
  | alreadyExists
  | permissionDenied
  | failedPrecondition
  | resourceExhausted
  | internal
  deriving DecidableEq, Repr

/-- A row of the `sessions` table, which coincides field-for-field with the
`pb.Session` message built by the handlers (`initDatabase`, sessions table). -/
structure Session where
  id : Nat
  title : String
  description : String
  coachId : String
  coachName : String
  capacity : Int
  reservedSpots : Int
  startTime : String
  endTime : String
  location : String
  sessionType : String
  difficultyLevel : String
  isCancelled : Bool
  createdAt : String
  updatedAt : String
  deriving DecidableEq, Repr

/-- A row of the `reservations` table (`initDatabase`, reservations table).
`status` defaults to `"confirmed"` at insertion. -/
structure Reservation where
  id : Nat
  sessionId : Nat
  userId : String
  userName : String
  status : String
  deriving DecidableEq, Repr

/-- The relational store: the two tables plus the `SERIAL` id sequences. -/
structure Store where
  sessions : List Session
  reservations : List Reservation
  nextSessionId : Nat
  nextReservationId : Nat
  deriving DecidableEq, Repr

/-- The fields of `pb.CreateSessionRequest` consumed by `CreateSession`. -/
structure CreateSessionRequest where
  title : String
  description : String
  coachId : String
  capacity : Int
  startTime : String
  endTime : String
  location : String
  sessionType : String
  difficultyLevel : String
  deriving DecidableEq, Repr

/-- The validation test of `CreateSession`, verbatim from the source:
`req.Title == "" || req.CoachId == "" || req.Capacity < 1 || req.StartTime == ""
|| req.EndTime == "" || req.Location == "" || req.SessionType == "" ||
req.DifficultyLevel == ""`.  `true` means the request is rejected. -/
def invalidCreateSession (req : CreateSessionRequest) : Bool :=
  req.title == "" || req.coachId == "" || decide (req.capacity < 1) ||
  req.startTime == "" || req.endTime == "" || req.location == "" ||
  req.sessionType == "" || req.difficultyLevel == ""

/-- The `CreateSession` RPC: validates, then inserts a row whose
`coach_name` is the literal `"Coach Name"` and whose `reserved_spots` takes
the schema default `0`; returns the created session with the
server-assigned id and the `created_at`/`updated_at` timestamps (both
`CURRENT_TIMESTAMP`, here the parameter `now`). -/
def createSession (st : Store) (now : String) (req : CreateSessionRequest) :
    Except ErrCode Session × Store :=
  if invalidCreateSession req then
    (Except.error ErrCode.invalidArgument, st)
  else
    let s : Session :=
      { id := st.nextSessionId
        title := req.title
        description := req.description
        coachId := req.coachId
        coachName := "Coach Name"
        capacity := req.capacity
        reservedSpots := 0
        startTime := req.startTime
        endTime := req.endTime
        location := req.location
        sessionType := req.sessionType
        difficultyLevel := req.difficultyLevel
        isCancelled := false
        createdAt := now
        updatedAt := now }
    (Except.ok s,
      { st with
          sessions := st.sessions ++ [s]
          nextSessionId := st.nextSessionId + 1 })

/-- The session row built by `CreateSession` on the success path: the
`INSERT` supplies the request fields with the literal `"Coach Name"` as
`coach_name`, the schema defaults `reserved_spots = 0` and
`is_cancelled = false`, and the server assigns the id and timestamps. -/
def newSessionRow (st : Store) (now : String) (req : CreateSessionRequest) :
    Session :=
  { id := st.nextSessionId
    title := req.title
    description := req.description
    coachId := req.coachId
    coachName := "Coach Name"
    capacity := req.capacity
    reservedSpots := 0
    startTime := req.startTime
    endTime := req.endTime
    location := req.location
    sessionType := req.sessionType
    difficultyLevel := req.difficultyLevel
    isCancelled := false
    createdAt := now
    updatedAt := now }

/-- The gateway's `handleGrpcError` middleware, verbatim from
`session.routes.js`: `NOT_FOUND` becomes 404, `ALREADY_EXISTS` becomes 409,
`PERMISSION_DENIED` becomes 403, and every other code falls through to the
final `res.status(500)`. -/
def handleGrpcError (code : ErrCode) (msg : String) : Nat × String :=
  if code = ErrCode.notFound then (404, "Resource not found")
  else if code = ErrCode.alreadyExists then (409, "Resource already exists")
  else if code = ErrCode.permissionDenied then (403, "Permission denied")
  else (500, "Internal server error: " ++ msg)

/-- Strict order on characters by code point. -/
def charLtB (a b : Char) : Bool := a.val.toNat < b.val.toNat

/-- Lexicographic strict order on character lists. -/
def listLtB : List Char → List Char → Bool
  | [], [] => false
  | [], _ :: _ => true
  | _ :: _, [] => false
  | a :: as, b :: bs =>
    if charLtB a b then true
    else if charLtB b a then false
    else listLtB as bs

/-- Lexicographic strict order on strings; on RFC3339 timestamps of equal
layout this coincides with chronological order, matching the store's
`TIMESTAMP` comparison. -/
def strLtB (a b : String) : Bool := listLtB a.data b.data

/-- `SELECT ... FROM sessions WHERE id = $1` (first matching row). -/
def findSession (st : Store) (sid : Nat) : Option Session :=
  st.sessions.find? fun s => s.id == sid

/-- `SELECT ... FROM reservations WHERE id = $1` (first matching row). -/
def findReservation (st : Store) (rid : Nat) : Option Reservation :=
  st.reservations.find? fun r => r.id == rid

/-- An active reservation for the pair exists:
`WHERE session_id = $1 AND user_id = $2 AND status = 'confirmed'`. -/
def hasActive (st : Store) (sid : Nat) (uid : String) : Bool :=
  st.reservations.any fun r =>
    r.sessionId == sid && r.userId == uid && r.status == "confirmed"

/-- The `UNIQUE(session_id, user_id)` constraint of the `reservations` table
(`initDatabase`): an insert is rejected whenever any row with the same
(session_id, user_id) already exists, regardless of that row's status.
Returns `none` on a uniqueness violation. -/
def insertReservationRow (st : Store) (r : Reservation) : Option Store :=
  if st.reservations.any fun t =>
      t.sessionId == r.sessionId && t.userId == r.userId then
    none
  else
    some { st with
             reservations := st.reservations ++ [r]
             nextReservationId := st.nextReservationId + 1 }

/-- Modelled from the spec: the `CreateReservation` RPC of the session
service, whose Go handler is absent from the source tree (only its proto
declaration, its schema, and its gateway caller are present).  Follows the
spec's steps in order: `NotFound` for an unknown session,
`FailedPrecondition` for a cancelled or past session, `AlreadyExists` for
an existing active reservation of the pair, `ResourceExhausted` when
`reserved_count == capacity`, otherwise a single atomic transaction that
inserts the row (subject to the store's real `UNIQUE(session_id, user_id)`
constraint, whose violation surfaces as a storage `Internal` error) and
increments the session's `reserved_spots`. -/
def createReservation (st : Store) (now : String) (sid : Nat)
    (uid uname : String) : Except ErrCode Reservation × Store :=
  match findSession st sid with
  | none => (Except.error ErrCode.notFound, st)
  | some s =>
    if s.isCancelled || strLtB s.endTime now then
      (Except.error ErrCode.failedPrecondition, st)
    else if hasActive st sid uid then
      (Except.error ErrCode.alreadyExists, st)
    else if s.reservedSpots == s.capacity then
      (Except.error ErrCode.resourceExhausted, st)
    else
      let r : Reservation :=
        { id := st.nextReservationId
          sessionId := sid
          userId := uid
          userName := uname
          status := "confirmed" }
      match insertReservationRow st r with
      | none => (Except.error ErrCode.internal, st)
      | some st2 =>
        (Except.ok r,
          { st2 with
              sessions := st2.sessions.map fun t =>
                if t.id == sid then
                  { t with reservedSpots := t.reservedSpots + 1 }
                else t })

/-- Modelled from the spec: the `CancelReservation` RPC of the session
service, whose Go handler is absent from the source tree.  `NotFound` for
an unknown reservation, `PermissionDenied` when the caller is neither the
owner nor an admin, `FailedPrecondition` when the reservation is already
cancelled; otherwise atomically marks the row cancelled and decrements the
owning session's `reserved_spots` by 1, never below 0. -/
def cancelReservation (st : Store) (rid : Nat) (caller : String)
    (isAdmin : Bool) : Except ErrCode Unit × Store :=
  match findReservation st rid with
  | none => (Except.error ErrCode.notFound, st)
  | some r =>
    if caller != r.userId && !isAdmin then
      (Except.error ErrCode.permissionDenied, st)
    else if r.status == "cancelled" then
      (Except.error ErrCode.failedPrecondition, st)
    else
      (Except.ok (),
        { st with
            reservations := st.reservations.map fun t =>
              if t.id == rid then { t with status := "cancelled" } else t
            sessions := st.sessions.map fun s2 =>
              if s2.id == r.sessionId then
                { s2 with reservedSpots := max (s2.reservedSpots - 1) 0 }
              else s2 })

/-- The optional fields of `pb.UpdateSessionRequest` (partial update:
absent fields are left unchanged). -/
structure UpdateSessionRequest where
  title : Option String := none
  description : Option String := none
  coachId : Option String := none
  capacity : Option Int := none
  startTime : Option String := none
  endTime : Option String := none
  location : Option String := none
  sessionType : Option String := none
  difficultyLevel : Option String := none
  isCancelled : Option Bool := none
  deriving DecidableEq, Repr

/-- Apply the provided fields of a partial update to a session row and
refresh `updated_at`. -/
def applyUpdate (s : Session) (u : UpdateSessionRequest) (now : String) :
    Session :=
  { s with
      title := u.title.getD s.title
      description := u.description.getD s.description
      coachId := u.coachId.getD s.coachId
      capacity := u.capacity.getD s.capacity
      startTime := u.startTime.getD s.startTime
      endTime := u.endTime.getD s.endTime
      location := u.location.getD s.location
      sessionType := u.sessionType.getD s.sessionType
      difficultyLevel := u.difficultyLevel.getD s.difficultyLevel
      isCancelled := u.isCancelled.getD s.isCancelled
      updatedAt := now }

/-- Modelled from the spec: the `UpdateSession` RPC of the session service,
whose Go handler is absent from the source tree.  `NotFound` for an
unknown session; re-validates that the resulting capacity is at least the
current `reserved_spots`, failing with `FailedPrecondition` and changing
nothing otherwise; on success applies only the provided fields and
refreshes `updated_at`. -/
def updateSession (st : Store) (now : String) (sid : Nat)
    (u : UpdateSessionRequest) : Except ErrCode Session × Store :=
  match findSession st sid with
  | none => (Except.error ErrCode.notFound, st)
  | some s =>
    if decide (u.capacity.getD s.capacity < s.reservedSpots) then
      (Except.error ErrCode.failedPrecondition, st)
    else
      (Except.ok (applyUpdate s u now),
        { st with
            sessions := st.sessions.map fun t =>
              if t.id == sid then applyUpdate s u now else t })

/-- One serialized client operation against the service.  The spec requires
every capacity-sensitive mutation to run as an atomic store-level
transaction, so a concurrent execution is equivalent to some sequence of
these operations. -/
inductive Op where
  | createSession (now : String) (req : CreateSessionRequest)
  | createReservation (now : String) (sid : Nat) (uid uname : String)
  | cancelReservation (rid : Nat) (caller : String) (isAdmin : Bool)
  | updateSession (now : String) (sid : Nat) (u : UpdateSessionRequest)

/-- Apply one operation to the store, keeping only the resulting state. -/
def step (st : Store) : Op → Store
  | Op.createSession now req => (createSession st now req).2
  | Op.createReservation now sid uid uname =>
      (createReservation st now sid uid uname).2
  | Op.cancelReservation rid caller isAdmin =>
      (cancelReservation st rid caller isAdmin).2
  | Op.updateSession now sid u => (updateSession st now sid u).2

/-- Run a sequence of operations from a starting store. -/
def run (st : Store) : List Op → Store
  | [] => st
  | op :: ops => run (step st op) ops

/-- Number of rows `WHERE session_id = sid AND status = 'confirmed'`. -/
def countConfirmed (l : List Reservation) (sid : Nat) : Nat :=
  (l.filter fun t => t.sessionId == sid && t.status == "confirmed").length

/-- The number of active (confirmed) reservations of a session. -/
def activeCount (st : Store) (sid : Nat) : Int :=
  (countConfirmed st.reservations sid : Int)

/-- Well-formedness of the store: the id sequences dominate the stored ids,
ids and (session_id, user_id) pairs are unique, reservation statuses range
over the two lifecycle states, reservations reference existing sessions,
and every session's `reserved_spots` equals its number of confirmed
reservations and stays within capacity. -/
def WF (st : Store) : Prop :=
  (st.sessions.map Session.id).Nodup ∧
  (∀ s ∈ st.sessions, s.id < st.nextSessionId) ∧
  (st.reservations.map Reservation.id).Nodup ∧
  (∀ r ∈ st.reservations, r.id < st.nextReservationId) ∧
  (st.reservations.map fun r => (r.sessionId, r.userId)).Nodup ∧
  (∀ r ∈ st.reservations, r.status = "confirmed" ∨ r.status = "cancelled") ∧
  (∀ r ∈ st.reservations, ∃ s ∈ st.sessions, s.id = r.sessionId) ∧
  (∀ s ∈ st.sessions,
      s.reservedSpots = (countConfirmed st.reservations s.id : Int) ∧
      s.reservedSpots ≤ s.capacity)

instance (st : Store) : Decidable (WF st) := by
  unfold WF; infer_instance

/-! ### Concrete stores used in scenarios -/

/-- The empty store, as produced by a fresh `initDatabase`. -/
def emptyStore : Store :=
  { sessions := [], reservations := [], nextSessionId := 1,
    nextReservationId := 1 }

/-- A valid creation request for a capacity-1 session. -/
def reqCap1 : CreateSessionRequest :=
  { title := "Spin", description := "", coachId := "coach-1", capacity := 1,
    startTime := "2030-01-01T10:00:00Z", endTime := "2030-01-01T11:00:00Z",
    location := "Studio", sessionType := "spin",
    difficultyLevel := "medium" }

/-- A valid creation request for a capacity-15 session. -/
def req15 : CreateSessionRequest :=
  { title := "HIIT", description := "", coachId := "coach-2",
    capacity := 15,
    startTime := "2030-02-01T10:00:00Z", endTime := "2030-02-01T11:00:00Z",
    location := "Hall", sessionType := "hiit", difficultyLevel := "hard" }

/-- A request whose end time does not lie strictly after its start time
but whose other fields are all valid. -/
def reqBadTimes : CreateSessionRequest :=
  { title := "Yoga", description := "", coachId := "coach-9",
    capacity := 5,
    startTime := "2030-01-01T10:00:00Z", endTime := "2030-01-01T10:00:00Z",
    location := "Room 1", sessionType := "yoga",
    difficultyLevel := "easy" }

/-- A request with non-positive capacity. -/
def reqCap0 : CreateSessionRequest :=
  { title := "Pilates", description := "", coachId := "coach-3",
    capacity := 0,
    startTime := "2030-03-01T10:00:00Z", endTime := "2030-03-01T11:00:00Z",
    location := "Room 2", sessionType := "pilates",
    difficultyLevel := "easy" }

/-- The request time used by the scenarios; before every session end. -/
def t0 : String := "2029-06-01T09:00:00Z"

/-- Store holding one empty capacity-1 session (id 1). -/
def stCap1 : Store := (createSession emptyStore t0 reqCap1).2

/-- `stCap1` after user A's reservation was admitted. -/
def stCap1A : Store := (createReservation stCap1 t0 1 "A" "Ann").2

/-- `stCap1A` after user A cancelled the reservation. -/
def stCap1C : Store := (cancelReservation stCap1A 1 "A" false).2

/-- The reservation row created for user A in the capacity-1 scenario. -/
def resA : Reservation :=
  { id := 1, sessionId := 1, userId := "A", userName := "Ann",
    status := "confirmed" }

/-- The same row after cancellation. -/
def resAC : Reservation :=
  { id := 1, sessionId := 1, userId := "A", userName := "Ann",
    status := "cancelled" }

/-- A fresh candidate row for the same (session, user) pair. -/
def resANew : Reservation :=
  { id := 2, sessionId := 1, userId := "A", userName := "Ann",
    status := "confirmed" }

/-- The capacity-1 session row after user A's admission. -/
def sessA1 : Session :=
  { id := 1, title := "Spin", description := "", coachId := "coach-1",
    coachName := "Coach Name", capacity := 1, reservedSpots := 1,
    startTime := "2030-01-01T10:00:00Z", endTime := "2030-01-01T11:00:00Z",
    location := "Studio", sessionType := "spin",
    difficultyLevel := "medium", isCancelled := false, createdAt := t0,
    updatedAt := t0 }

/-- Store holding one empty capacity-15 session (id 1). -/
def c3St1 : Store := (createSession emptyStore t0 req15).2

/-- `c3St1` after user A reserved. -/
def c3St2 : Store := (createReservation c3St1 t0 1 "A" "Ann").2

/-- `c3St2` after user A cancelled the reservation. -/
def c3St3 : Store := (cancelReservation c3St2 1 "A" false).2

/-- A partial update that shrinks capacity to 0. -/
def updCap0 : UpdateSessionRequest := { capacity := some 0 }

/-- The capacity-15 session row after A's reservation was cancelled. -/
def sess15AfterCancel : Session :=
  { id := 1, title := "HIIT", description := "", coachId := "coach-2",
    coachName := "Coach Name", capacity := 15, reservedSpots := 0,
    startTime := "2030-02-01T10:00:00Z", endTime := "2030-02-01T11:00:00Z",
    location := "Hall", sessionType := "hiit", difficultyLevel := "hard",
    isCancelled := false, createdAt := t0, updatedAt := t0 }

/-! ### List helper lemmas -/

theorem map_fix {α : Type} {l : List α} {φ : α → α} (h : ∀ x ∈ l, φ x = x) :
    l.map φ = l :=
  (List.map_congr_left h).trans (List.map_id l)

/-- Split a list at an element whose key is unique in the list. -/
theorem exists_key_split {α β : Type} [DecidableEq β] (key : α → β)
    {l : List α} (hnd : (l.map key).Nodup) {r : α} (hr : r ∈ l) :
    ∃ l₁ l₂, l = l₁ ++ r :: l₂ ∧ (∀ t ∈ l₁, key t ≠ key r) ∧
      ∀ t ∈ l₂, key t ≠ key r := by
  obtain ⟨l₁, l₂, rfl⟩ := List.append_of_mem hr
  rw [List.map_append, List.map_cons, List.nodup_append] at hnd
  obtain ⟨-, hnd2, hdisj⟩ := hnd
  rw [List.nodup_cons] at hnd2
  refine ⟨l₁, l₂, rfl, ?_, ?_⟩
  · intro t ht heq
    exact hdisj (List.mem_map_of_mem key ht) (by simp [heq])
  · intro t ht heq
    exact hnd2.1 (heq ▸ List.mem_map_of_mem key ht)

theorem countConfirmed_append (l₁ l₂ : List Reservation) (sid : Nat) :
    countConfirmed (l₁ ++ l₂) sid =
      countConfirmed l₁ sid + countConfirmed l₂ sid := by
  simp [countConfirmed, List.filter_append]

theorem countConfirmed_cons (t : Reservation) (l : List Reservation)
    (sid : Nat) :
    countConfirmed (t :: l) sid =
      (if t.sessionId == sid && t.status == "confirmed" then 1 else 0) +
        countConfirmed l sid := by
  simp only [countConfirmed, List.filter_cons]
  split
  · simp
    omega
  · simp

theorem countConfirmed_eq_zero {l : List Reservation} {sid : Nat}
    (h : ∀ t ∈ l, t.sessionId ≠ sid) : countConfirmed l sid = 0 := by
  have hnil : (l.filter fun t =>
      t.sessionId == sid && t.status == "confirmed") = [] := by
    rw [List.filter_eq_nil_iff]
    intro t ht
    simp [h t ht]
  simp [countConfirmed, hnil]

/-- A valid `CreateSession` request has positive capacity. -/
theorem capacity_pos_of_valid {req : CreateSessionRequest}
    (h : invalidCreateSession req = false) : 1 ≤ req.capacity := by
  unfold invalidCreateSession at h
  simp only [Bool.or_eq_false_iff, decide_eq_false_iff_not, not_lt,
    beq_eq_false_iff_ne, ne_eq] at h
  exact h.1.1.1.1.1.2

theorem countConfirmed_snoc (l : List Reservation) (r : Reservation) (x : Nat) :
    countConfirmed (l ++ [r]) x =
      countConfirmed l x +
        (if r.sessionId == x && r.status == "confirmed" then 1 else 0) := by
  rw [countConfirmed_append]
  congr 1
  rw [countConfirmed_cons]
  simp [countConfirmed]

/-- Cancelling one reservation (by unique id) removes exactly its own
contribution from the confirmed count of every session. -/
theorem countConfirmed_cancel {l : List Reservation}
    (hnd : (l.map Reservation.id).Nodup) {r : Reservation} (hr : r ∈ l)
    (x : Nat) :
    countConfirmed
        (l.map fun t => if t.id == r.id then { t with status := "cancelled" }
          else t) x
      + (if r.sessionId == x && r.status == "confirmed" then 1 else 0)
      = countConfirmed l x := by
  obtain ⟨l₁, l₂, rfl, hl₁, hl₂⟩ := exists_key_split Reservation.id hnd hr
  rw [List.map_append, List.map_cons]
  have e₁ : (l₁.map fun t =>
      if t.id == r.id then { t with status := "cancelled" } else t) = l₁ :=
    map_fix fun t ht => by simp [hl₁ t ht]
  have e₂ : (l₂.map fun t =>
      if t.id == r.id then { t with status := "cancelled" } else t) = l₂ :=
    map_fix fun t ht => by simp [hl₂ t ht]
  have er : (if r.id == r.id then { r with status := "cancelled" } else r)
      = { r with status := "cancelled" } := by simp
  rw [e₁, e₂, er, countConfirmed_append, countConfirmed_append,
    countConfirmed_cons, countConfirmed_cons]
  have hcc : ((({ r with status := "cancelled" } :
      Reservation).sessionId == x) &&
      (({ r with status := "cancelled" } : Reservation).status ==
        "confirmed")) = false := by
    simp
  rw [hcc]
  simp only [if_false, Bool.false_eq_true]
  split <;> omega

/-! ### Preservation of well-formedness -/

theorem wf_createSession (st : Store) (now : String)
    (req : CreateSessionRequest) (h : WF st) :
    WF (createSession st now req).2 := by
  obtain ⟨h1, h2, h3, h4, h5, h6, h7, h8⟩ := h
  unfold createSession
  by_cases hv : invalidCreateSession req
  · simp only [hv, if_true]
    exact ⟨h1, h2, h3, h4, h5, h6, h7, h8⟩
  · simp only [hv, if_false, Bool.false_eq_true]
    refine ⟨?_, ?_, h3, h4, h5, h6, ?_, ?_⟩
    · rw [List.map_append, List.nodup_append]
      refine ⟨h1, by simp, ?_⟩
      intro a ha hb
      simp only [List.map_cons, List.map_nil, List.mem_singleton] at hb
      obtain ⟨s, hs, rfl⟩ := List.mem_map.mp ha
      exact absurd hb (Nat.ne_of_lt (h2 s hs))
    · intro s hs
      rcases List.mem_append.mp hs with hold | hnew
      · exact Nat.lt_succ_of_lt (h2 s hold)
      · simp only [List.mem_singleton] at hnew
        subst hnew
        exact Nat.lt_succ_self _
    · intro r hr
      obtain ⟨s, hs, hid⟩ := h7 r hr
      exact ⟨s, List.mem_append_left _ hs, hid⟩
    · intro s hs
      rcases List.mem_append.mp hs with hold | hnew
      · exact h8 s hold
      · simp only [List.mem_singleton] at hnew
        subst hnew
        constructor
        · have hz : countConfirmed st.reservations st.nextSessionId = 0 := by
            apply countConfirmed_eq_zero
            intro t ht
            obtain ⟨s0, hs0, hid0⟩ := h7 t ht
            exact hid0 ▸ Nat.ne_of_lt (h2 s0 hs0)
          simp [hz]
        · have := capacity_pos_of_valid (by simpa using hv)
          simp only
          omega

theorem wf_createReservation (st : Store) (now : String) (sid : Nat)
    (uid uname : String) (h : WF st) :
    WF (createReservation st now sid uid uname).2 := by
  obtain ⟨h1, h2, h3, h4, h5, h6, h7, h8⟩ := h
  have hWF : WF st := ⟨h1, h2, h3, h4, h5, h6, h7, h8⟩
  unfold createReservation
  cases hfind : findSession st sid with
  | none => exact hWF
  | some s =>
    have hfind' : st.sessions.find? (fun t => t.id == sid) = some s := hfind
    have hsmem : s ∈ st.sessions := List.mem_of_find?_eq_some hfind'
    have hsid : s.id = sid := by simpa using List.find?_some hfind'
    by_cases hcp : (s.isCancelled || strLtB s.endTime now) = true
    · simp only [hcp, if_true]
      exact hWF
    · simp only [Bool.not_eq_true] at hcp
      simp only [hcp, Bool.false_eq_true, if_false]
      by_cases hact : hasActive st sid uid = true
      · simp only [hact, if_true]
        exact hWF
      · simp only [Bool.not_eq_true] at hact
        simp only [hact, Bool.false_eq_true, if_false]
        by_cases hfull : (s.reservedSpots == s.capacity) = true
        · simp only [hfull, if_true]
          exact hWF
        · simp only [Bool.not_eq_true] at hfull
          simp only [hfull, Bool.false_eq_true, if_false]
          by_cases hins : (st.reservations.any fun t =>
              t.sessionId == sid && t.userId == uid) = true
          · simp only [insertReservationRow, hins, if_true]
            exact hWF
          · simp only [Bool.not_eq_true] at hins
            simp only [insertReservationRow, hins, Bool.false_eq_true,
              if_false]
            rw [List.any_eq_false] at hins
            unfold hasActive at hact
            rw [List.any_eq_false] at hact
            have hφid : ∀ t : Session,
                ((if t.id == sid then
                    { t with reservedSpots := t.reservedSpots + 1 }
                  else t) : Session).id = t.id := by
              intro t
              by_cases hc : (t.id == sid) = true <;> simp [hc]
            refine ⟨?_, ?_, ?_, ?_, ?_, ?_, ?_, ?_⟩
            · rw [List.map_map]
              have : (st.sessions.map fun t => Session.id
                  (if t.id == sid then
                    { t with reservedSpots := t.reservedSpots + 1 }
                  else t)) = st.sessions.map Session.id :=
                List.map_congr_left fun t _ => hφid t
              rw [show ((fun t => Session.id
                  (if t.id == sid then
                    { t with reservedSpots := t.reservedSpots + 1 }
                  else t)) = (Session.id ∘ fun t =>
                    if t.id == sid then
                      { t with reservedSpots := t.reservedSpots + 1 }
                    else t)) from rfl] at this
              rw [this]
              exact h1
            · intro s' hs'
              obtain ⟨t, ht, rfl⟩ := List.mem_map.mp hs'
              rw [hφid t]
              exact h2 t ht
            · rw [List.map_append, List.nodup_append]
              refine ⟨h3, by simp, ?_⟩
              intro a ha hb
              simp only [List.map_cons, List.map_nil,
                List.mem_singleton] at hb
              obtain ⟨t, ht, rfl⟩ := List.mem_map.mp ha
              exact absurd hb (Nat.ne_of_lt (h4 t ht))
            · intro t ht
              rcases List.mem_append.mp ht with hold | hnew
              · exact Nat.lt_succ_of_lt (h4 t hold)
              · simp only [List.mem_singleton] at hnew
                subst hnew
                exact Nat.lt_succ_self _
            · rw [List.map_append, List.nodup_append]
              refine ⟨h5, by simp, ?_⟩
              intro a ha hb
              simp only [List.map_cons, List.map_nil,
                List.mem_singleton] at hb
              obtain ⟨t, ht, rfl⟩ := List.mem_map.mp ha
              have hpair : t.sessionId = sid ∧ t.userId = uid := by
                have := congrArg Prod.fst hb
                have h2' := congrArg Prod.snd hb
                exact ⟨this, h2'⟩
              have := hins t ht
              simp [hpair.1, hpair.2] at this
            · intro t ht
              rcases List.mem_append.mp ht with hold | hnew
              · exact h6 t hold
              · simp only [List.mem_singleton] at hnew
                subst hnew
                exact Or.inl rfl
            · intro t ht
              rcases List.mem_append.mp ht with hold | hnew
              · obtain ⟨s0, hs0, hid0⟩ := h7 t hold
                exact ⟨_, List.mem_map_of_mem _ hs0, by rw [hφid s0]; exact hid0⟩
              · simp only [List.mem_singleton] at hnew
                subst hnew
                exact ⟨_, List.mem_map_of_mem _ hsmem, by rw [hφid s]; exact hsid⟩
            · intro s' hs'
              obtain ⟨t, ht, rfl⟩ := List.mem_map.mp hs'
              obtain ⟨hcnt, hcap⟩ := h8 t ht
              by_cases hc : (t.id == sid) = true
              · have ht_eq : t = s := by
                  apply List.inj_on_of_nodup_map h1 ht hsmem
                  rw [beq_iff_eq] at hc
                  rw [hc, hsid]
                subst ht_eq
                simp only [hc, if_true]
                rw [countConfirmed_snoc]
                rw [beq_iff_eq] at hc
                rw [beq_eq_false_iff_ne] at hfull
                rw [hc] at hcnt
                simp only [hc, beq_self_eq_true, Bool.and_true, if_true,
                  beq_self_eq_true]
                constructor
                · push_cast
                  omega
                · omega
              · rw [Bool.not_eq_true] at hc
                simp only [hc, Bool.false_eq_true, if_false]
                rw [countConfirmed_snoc]
                rw [beq_eq_false_iff_ne] at hc
                simp only [show (sid == t.id) = false from
                    beq_eq_false_iff_ne.mpr fun he => hc he.symm,
                  Bool.false_and, if_false, Bool.false_eq_true,
                  Nat.add_zero]
                exact ⟨hcnt, hcap⟩

theorem nodup_map_comp {α β : Type} {l : List α} {φ : α → α} {key : α → β}
    (hφ : ∀ x, key (φ x) = key x) (h : (l.map key).Nodup) :
    ((l.map φ).map key).Nodup := by
  rw [List.map_map]
  have he : (key ∘ φ) = key := funext hφ
  rw [he]
  exact h

theorem wf_cancelReservation (st : Store) (rid : Nat) (caller : String)
    (isAdmin : Bool) (h : WF st) :
    WF (cancelReservation st rid caller isAdmin).2 := by
  obtain ⟨h1, h2, h3, h4, h5, h6, h7, h8⟩ := h
  have hWF : WF st := ⟨h1, h2, h3, h4, h5, h6, h7, h8⟩
  unfold cancelReservation
  cases hfind : findReservation st rid with
  | none => exact hWF
  | some r =>
    have hfind' : st.reservations.find? (fun t => t.id == rid) = some r :=
      hfind
    have hrmem : r ∈ st.reservations := List.mem_of_find?_eq_some hfind'
    have hrid : r.id = rid := by simpa using List.find?_some hfind'
    by_cases hperm : (caller != r.userId && !isAdmin) = true
    · simp only [hperm, if_true]
      exact hWF
    · simp only [Bool.not_eq_true] at hperm
      simp only [hperm, Bool.false_eq_true, if_false]
      by_cases hcanc : (r.status == "cancelled") = true
      · simp only [hcanc, if_true]
        exact hWF
      · simp only [Bool.not_eq_true] at hcanc
        simp only [hcanc, Bool.false_eq_true, if_false]
        have hconf : r.status = "confirmed" := by
          rcases h6 r hrmem with hcf | hcc
          · exact hcf
          · rw [beq_eq_false_iff_ne] at hcanc
            exact absurd hcc hcanc
        rw [← hrid]
        have hψid : ∀ t : Reservation,
            ((if t.id == r.id then { t with status := "cancelled" }
              else t) : Reservation).id = t.id := by
          intro t
          by_cases hx : (t.id == r.id) = true <;> simp [hx]
        have hψpair : ∀ t : Reservation,
            ((((if t.id == r.id then { t with status := "cancelled" }
              else t) : Reservation).sessionId,
              ((if t.id == r.id then { t with status := "cancelled" }
              else t) : Reservation).userId) : Nat × String)
              = (t.sessionId, t.userId) := by
          intro t
          by_cases hx : (t.id == r.id) = true <;> simp [hx]
        have hψsid : ∀ t : Reservation,
            ((if t.id == r.id then { t with status := "cancelled" }
              else t) : Reservation).sessionId = t.sessionId := by
          intro t
          by_cases hx : (t.id == r.id) = true <;> simp [hx]
        have hχid : ∀ s2 : Session,
            ((if s2.id == r.sessionId then
                { s2 with reservedSpots := max (s2.reservedSpots - 1) 0 }
              else s2) : Session).id = s2.id := by
          intro s2
          by_cases hx : (s2.id == r.sessionId) = true <;> simp [hx]
        refine ⟨?_, ?_, ?_, ?_, ?_, ?_, ?_, ?_⟩
        · exact nodup_map_comp hχid h1
        · intro s' hs'
          obtain ⟨s2, hsm, rfl⟩ := List.mem_map.mp hs'
          rw [hχid s2]
          exact h2 s2 hsm
        · exact nodup_map_comp hψid h3
        · intro t' ht'
          obtain ⟨t, htm, rfl⟩ := List.mem_map.mp ht'
          rw [hψid t]
          exact h4 t htm
        · exact nodup_map_comp hψpair h5
        · intro t' ht'
          obtain ⟨t, htm, rfl⟩ := List.mem_map.mp ht'
          by_cases hx : (t.id == r.id) = true
          · simp only [hx, if_true]
            exact Or.inr trivial
          · rw [Bool.not_eq_true] at hx
            simp only [hx, Bool.false_eq_true, if_false]
            exact h6 t htm
        · intro t' ht'
          obtain ⟨t, htm, rfl⟩ := List.mem_map.mp ht'
          obtain ⟨s0, hs0, hid0⟩ := h7 t htm
          refine ⟨_, List.mem_map_of_mem _ hs0, ?_⟩
          rw [hχid s0, hψsid t]
          exact hid0
        · intro s' hs'
          obtain ⟨s2, hsm, rfl⟩ := List.mem_map.mp hs'
          obtain ⟨hcnt, hcap⟩ := h8 s2 hsm
          have hcc := countConfirmed_cancel h3 hrmem s2.id
          rw [hconf] at hcc
          simp only [beq_self_eq_true, Bool.and_true] at hcc
          by_cases hx : (s2.id == r.sessionId) = true
          · rw [beq_iff_eq] at hx
            have hx2 : (s2.id == r.sessionId) = true := by
              rw [hx]; exact beq_self_eq_true _
            simp only [hx2, if_true]
            rw [← hx] at hcc
            simp only [beq_self_eq_true, if_true] at hcc
            exact ⟨by omega, by omega⟩
          · rw [Bool.not_eq_true] at hx
            simp only [hx, Bool.false_eq_true, if_false]
            have hne : (r.sessionId == s2.id) = false := by
              rw [beq_eq_false_iff_ne] at hx ⊢
              exact fun he => hx he.symm
            rw [hne] at hcc
            simp only [Bool.false_eq_true, if_false, Nat.add_zero] at hcc
            exact ⟨by omega, hcap⟩

theorem wf_updateSession (st : Store) (now : String) (sid : Nat)
    (u : UpdateSessionRequest) (h : WF st) :
    WF (updateSession st now sid u).2 := by
  obtain ⟨h1, h2, h3, h4, h5, h6, h7, h8⟩ := h
  have hWF : WF st := ⟨h1, h2, h3, h4, h5, h6, h7, h8⟩
  unfold updateSession
  cases hfind : findSession st sid with
  | none => exact hWF
  | some s =>
    have hfind' : st.sessions.find? (fun t => t.id == sid) = some s := hfind
    have hsmem : s ∈ st.sessions := List.mem_of_find?_eq_some hfind'
    have hsid : s.id = sid := by simpa using List.find?_some hfind'
    by_cases hguard :
        decide (u.capacity.getD s.capacity < s.reservedSpots) = true
    · simp only [hguard, if_true]
      exact hWF
    · simp only [Bool.not_eq_true] at hguard
      simp only [hguard, Bool.false_eq_true, if_false]
      rw [decide_eq_false_iff_not, not_lt] at hguard
      have hχid : ∀ t : Session,
          ((if t.id == sid then applyUpdate s u now else t) : Session).id
            = t.id := by
        intro t
        by_cases hx : (t.id == sid) = true
        · simp only [hx, if_true]
          rw [beq_iff_eq] at hx
          rw [show (applyUpdate s u now).id = s.id from rfl, hsid, hx]
        · rw [Bool.not_eq_true] at hx
          simp [hx]
      refine ⟨?_, ?_, h3, h4, h5, h6, ?_, ?_⟩
      · exact nodup_map_comp hχid h1
      · intro s' hs'
        obtain ⟨t, htm, rfl⟩ := List.mem_map.mp hs'
        rw [hχid t]
        exact h2 t htm
      · intro r hr
        obtain ⟨s0, hs0, hid0⟩ := h7 r hr
        refine ⟨_, List.mem_map_of_mem _ hs0, ?_⟩
        rw [hχid s0]
        exact hid0
      · intro s' hs'
        obtain ⟨t, htm, rfl⟩ := List.mem_map.mp hs'
        by_cases hx : (t.id == sid) = true
        · simp only [hx, if_true]
          constructor
          · rw [show (applyUpdate s u now).reservedSpots
                = s.reservedSpots from rfl,
              show (applyUpdate s u now).id = s.id from rfl]
            exact (h8 s hsmem).1
          · rw [show (applyUpdate s u now).reservedSpots
                = s.reservedSpots from rfl,
              show (applyUpdate s u now).capacity
                = u.capacity.getD s.capacity from rfl]
            exact hguard
        · rw [Bool.not_eq_true] at hx
          simp only [hx, Bool.false_eq_true, if_false]
          exact h8 t htm

/-- Every single operation preserves well-formedness of the store. -/
theorem wf_step (st : Store) (op : Op) (h : WF st) : WF (step st op) := by
  cases op with
  | createSession now req => exact wf_createSession st now req h
  | createReservation now sid uid uname =>
      exact wf_createReservation st now sid uid uname h
  | cancelReservation rid caller isAdmin =>
      exact wf_cancelReservation st rid caller isAdmin h
  | updateSession now sid u => exact wf_updateSession st now sid u h

/-- Every sequence of operations preserves well-formedness of the store. -/
theorem wf_run (st : Store) (ops : List Op) (h : WF st) :
    WF (run st ops) := by
  induction ops generalizing st with
  | nil => exact h
  | cons op ops ih => exact ih (step st op) (wf_step st op h)

/-- In a well-formed store every session's number of confirmed reservations
is bounded by its capacity. -/
theorem activeCount_le_capacity {st : Store} (h : WF st) :
    ∀ s ∈ st.sessions, activeCount st s.id ≤ s.capacity := by
  intro s hs
  obtain ⟨hcnt, hcap⟩ := h.2.2.2.2.2.2.2 s hs
  unfold activeCount
  rw [← hcnt]
  exact hcap

/-- Under unique (session_id, user_id) pairs, at most one row of a pair is
confirmed. -/
theorem pair_filter_le_one (sid : Nat) (uid : String) :
    ∀ l : List Reservation,
      (l.map fun r => (r.sessionId, r.userId)).Nodup →
      (l.filter fun r => r.sessionId == sid && r.userId == uid &&
        r.status == "confirmed").length ≤ 1 := by
  intro l
  induction l with
  | nil =>
    intro _
    simp [List.filter_nil]
  | cons a l ih =>
    intro hnd
    rw [List.map_cons, List.nodup_cons] at hnd
    obtain ⟨hna, hnd'⟩ := hnd
    rw [List.filter_cons]
    by_cases hpa : (a.sessionId == sid && a.userId == uid &&
        a.status == "confirmed") = true
    · simp only [hpa, if_true]
      have hij : a.sessionId = sid ∧ a.userId = uid := by
        simp only [Bool.and_eq_true, beq_iff_eq] at hpa
        exact ⟨hpa.1.1, hpa.1.2⟩
      have hrest : (l.filter fun r => r.sessionId == sid &&
          r.userId == uid && r.status == "confirmed") = [] := by
        rw [List.filter_eq_nil_iff]
        intro t ht hpt
        simp only [Bool.and_eq_true, beq_iff_eq] at hpt
        apply hna
        rw [List.mem_map]
        exact ⟨t, ht, by rw [hpt.1.1, hpt.1.2, hij.1, hij.2]⟩
      rw [hrest]
      simp
    · rw [Bool.not_eq_true] at hpa
      simp only [hpa, Bool.false_eq_true, if_false]
      exact ih hnd'

/-- The reservations table changes in one of three ways under a single
operation: unchanged, one fresh row appended, or one row's status set to
cancelled. -/
theorem step_reservations_cases (st : Store) (op : Op) :
    (step st op).reservations = st.reservations ∨
    (∃ rn : Reservation, (step st op).reservations
        = st.reservations ++ [rn] ∧ rn.id = st.nextReservationId) ∨
    (∃ rid : Nat, (step st op).reservations
        = st.reservations.map fun t =>
            if t.id == rid then { t with status := "cancelled" } else t) := by
  cases op with
  | createSession now req =>
    simp only [step]
    unfold createSession
    by_cases hv : invalidCreateSession req = true
    · simp [hv]
    · rw [Bool.not_eq_true] at hv
      simp [hv]
  | createReservation now sid uid uname =>
    simp only [step]
    unfold createReservation
    cases hfind : findSession st sid with
    | none => exact Or.inl rfl
    | some s =>
      by_cases hcp : (s.isCancelled || strLtB s.endTime now) = true
      · simp only [hcp, if_true]
        exact Or.inl trivial
      · rw [Bool.not_eq_true] at hcp
        simp only [hcp, Bool.false_eq_true, if_false]
        by_cases hact : hasActive st sid uid = true
        · simp only [hact, if_true]
          exact Or.inl trivial
        · rw [Bool.not_eq_true] at hact
          simp only [hact, Bool.false_eq_true, if_false]
          by_cases hfull : (s.reservedSpots == s.capacity) = true
          · simp only [hfull, if_true]
            exact Or.inl trivial
          · rw [Bool.not_eq_true] at hfull
            simp only [hfull, Bool.false_eq_true, if_false]
            by_cases hins : (st.reservations.any fun t =>
                t.sessionId == sid && t.userId == uid) = true
            · simp only [insertReservationRow, hins, if_true]
              exact Or.inl trivial
            · rw [Bool.not_eq_true] at hins
              simp only [insertReservationRow, hins, Bool.false_eq_true,
                if_false]
              exact Or.inr (Or.inl ⟨_, rfl, rfl⟩)
  | cancelReservation rid caller isAdmin =>
    simp only [step]
    unfold cancelReservation
    cases hfind : findReservation st rid with
    | none => exact Or.inl rfl
    | some r =>
      by_cases hperm : (caller != r.userId && !isAdmin) = true
      · simp only [hperm, if_true]
        exact Or.inl trivial
      · rw [Bool.not_eq_true] at hperm
        simp only [hperm, Bool.false_eq_true, if_false]
        by_cases hcanc : (r.status == "cancelled") = true
        · simp only [hcanc, if_true]
          exact Or.inl trivial
        · rw [Bool.not_eq_true] at hcanc
          simp only [hcanc, Bool.false_eq_true, if_false]
          exact Or.inr (Or.inr ⟨rid, rfl⟩)
  | updateSession now sid u =>
    simp only [step]
    unfold updateSession
    cases hfind : findSession st sid with
    | none => exact Or.inl rfl
    | some s =>
      by_cases hguard :
          decide (u.capacity.getD s.capacity < s.reservedSpots) = true
      · simp only [hguard, if_true]
        exact Or.inl trivial
      · rw [Bool.not_eq_true] at hguard
        simp only [hguard, Bool.false_eq_true, if_false]
        exact Or.inl trivial

/-! ### The claims -/

/-- Claim C1: over every serialized sequence of operations from a
well-formed store (the spec requires concurrent executions to be
equivalent to such a sequence), no session's number of confirmed
reservations ever exceeds its capacity; whenever a live session's
`reserved_count` equals its capacity and the caller holds no active
reservation, `CreateReservation` fails with `ResourceExhausted` and leaves
the store unchanged; and in the capacity-1 scenario the first of two
callers is admitted with a confirmed reservation while the second fails
with `ResourceExhausted`, leaving `reserved_count = 1`. -/
theorem c1_capacity_invariant :
    (∀ (st : Store) (ops : List Op), WF st →
      ∀ s ∈ (run st ops).sessions,
        activeCount (run st ops) s.id ≤ s.capacity) ∧
    (∀ (st : Store) (now : String) (sid : Nat) (uid uname : String)
        (s : Session), findSession st sid = some s →
      s.isCancelled = false → strLtB s.endTime now = false →
      hasActive st sid uid = false → s.reservedSpots = s.capacity →
      createReservation st now sid uid uname =
        (Except.error ErrCode.resourceExhausted, st)) ∧
    (createReservation stCap1 t0 1 "A" "Ann").1 = Except.ok resA ∧
    resA.status = "confirmed" ∧
    createReservation stCap1A t0 1 "B" "Ben" =
      (Except.error ErrCode.resourceExhausted, stCap1A) ∧
    activeCount stCap1A 1 = 1 ∧
    (findSession stCap1A 1).map Session.reservedSpots = some 1 := by
  refine ⟨?_, ?_, by decide, by decide, by decide, by decide, by decide⟩
  · intro st ops h
    exact activeCount_le_capacity (wf_run st ops h)
  · intro st now sid uid uname s hf hc hp ha hfull
    unfold createReservation
    rw [hf]
    simp only [hc, hp, Bool.or_false, Bool.false_eq_true, if_false, ha,
      hfull, beq_self_eq_true, if_true]

/-- Witness for C1: the hypotheses of both universally quantified parts
hold at the concrete capacity-1 scenario, and the conclusions follow from
the theorem itself. -/
theorem c1_capacity_invariant_witness :
    WF stCap1 ∧ sessA1 ∈ stCap1A.sessions ∧
    activeCount (run stCap1 [Op.createReservation t0 1 "A" "Ann"]) sessA1.id
      ≤ sessA1.capacity ∧
    findSession stCap1A 1 = some sessA1 ∧
    sessA1.isCancelled = false ∧ strLtB sessA1.endTime t0 = false ∧
    hasActive stCap1A 1 "B" = false ∧
    sessA1.reservedSpots = sessA1.capacity ∧
    createReservation stCap1A t0 1 "B" "Ben" =
      (Except.error ErrCode.resourceExhausted, stCap1A) := by
  refine ⟨by decide, by decide, ?_, by decide, by decide, by decide,
    by decide, by decide, ?_⟩
  · exact c1_capacity_invariant.1 stCap1
      [Op.createReservation t0 1 "A" "Ann"] (by decide) sessA1 (by decide)
  · exact c1_capacity_invariant.2.1 stCap1A t0 1 "B" "Ben" sessA1
      (by decide) (by decide) (by decide) (by decide) (by decide)

/-- Claim C2: in every store reachable by a serialized sequence of
operations from a well-formed store, at most one confirmed reservation
exists per (session, user) pair; and `CreateReservation` against a live
session fails with `AlreadyExists`, changing nothing, whenever an active
reservation of the pair already exists. -/
theorem c2_no_duplicate_active :
    (∀ (st : Store) (ops : List Op), WF st → ∀ (sid : Nat) (uid : String),
      ((run st ops).reservations.filter fun r =>
        r.sessionId == sid && r.userId == uid &&
          r.status == "confirmed").length ≤ 1) ∧
    (∀ (st : Store) (now : String) (sid : Nat) (uid uname : String)
        (s : Session), findSession st sid = some s →
      s.isCancelled = false → strLtB s.endTime now = false →
      hasActive st sid uid = true →
      createReservation st now sid uid uname =
        (Except.error ErrCode.alreadyExists, st)) := by
  constructor
  · intro st ops h sid uid
    have hw := wf_run st ops h
    exact pair_filter_le_one sid uid _ hw.2.2.2.2.1
  · intro st now sid uid uname s hf hc hp ha
    unfold createReservation
    rw [hf]
    simp only [hc, hp, Bool.or_false, Bool.false_eq_true, if_false, ha,
      if_true]

/-- Witness for C2: at the concrete store where user A already holds a
confirmed reservation, the duplicate-request conclusion and the bound
follow from the theorem itself. -/
theorem c2_no_duplicate_active_witness :
    WF stCap1A ∧
    ((run stCap1A []).reservations.filter fun r =>
      r.sessionId == 1 && r.userId == "A" &&
        r.status == "confirmed").length ≤ 1 ∧
    findSession stCap1A 1 = some sessA1 ∧
    hasActive stCap1A 1 "A" = true ∧
    createReservation stCap1A t0 1 "A" "Ann" =
      (Except.error ErrCode.alreadyExists, stCap1A) := by
  refine ⟨by decide, ?_, by decide, by decide, ?_⟩
  · exact c2_no_duplicate_active.1 stCap1A [] (by decide) 1 "A"
  · exact c2_no_duplicate_active.2 stCap1A t0 1 "A" "Ann" sessA1
      (by decide) (by decide) (by decide) (by decide)

/-- Claim C6: cancelling an already-cancelled reservation (by its owner or
an admin) always fails with `FailedPrecondition` and leaves the store — in
particular the owning session's `reserved_count` — unchanged; moreover
`cancelled` is terminal: no operation ever moves a cancelled reservation
out of the `cancelled` status. -/
theorem c6_cancel_terminal :
    (∀ (st : Store) (rid : Nat) (caller : String) (isAdmin : Bool)
        (r : Reservation), findReservation st rid = some r →
      r.status = "cancelled" → (caller = r.userId ∨ isAdmin = true) →
      cancelReservation st rid caller isAdmin =
        (Except.error ErrCode.failedPrecondition, st)) ∧
    (∀ (st : Store) (op : Op) (t : Reservation), WF st →
      t ∈ st.reservations → t.status = "cancelled" →
      ∀ t2 ∈ (step st op).reservations, t2.id = t.id →
        t2.status = "cancelled") := by
  constructor
  · intro st rid caller isAdmin r hf hst hperm
    unfold cancelReservation
    rw [hf]
    have hp : (caller != r.userId && !isAdmin) = false := by
      rcases hperm with hp | hp
      · simp [hp]
      · simp [hp]
    simp only [hp, Bool.false_eq_true, if_false, hst, beq_self_eq_true,
      if_true]
  · intro st op t hw htm hst t2 ht2 hid
    rcases step_reservations_cases st op with hcase | ⟨rn, hcase, hrn⟩ |
      ⟨rid, hcase⟩
    · rw [hcase] at ht2
      have heq : t2 = t := List.inj_on_of_nodup_map hw.2.2.1 ht2 htm hid
      rw [heq]
      exact hst
    · rw [hcase] at ht2
      rcases List.mem_append.mp ht2 with hold | hnew
      · have heq : t2 = t := List.inj_on_of_nodup_map hw.2.2.1 hold htm hid
        rw [heq]
        exact hst
      · simp only [List.mem_singleton] at hnew
        subst hnew
        have hlt := hw.2.2.2.1 t htm
        rw [← hid, hrn] at hlt
        exact absurd hlt (lt_irrefl _)
    · rw [hcase] at ht2
      obtain ⟨t3, ht3, rfl⟩ := List.mem_map.mp ht2
      by_cases hx : (t3.id == rid) = true
      · simp [hx]
      · rw [Bool.not_eq_true] at hx
        simp only [hx, Bool.false_eq_true, if_false] at hid ⊢
        have heq : t3 = t := List.inj_on_of_nodup_map hw.2.2.1 ht3 htm hid
        rw [heq]
        exact hst

/-- Witness for C6: re-cancelling user A's already-cancelled reservation
in the concrete store fails with `FailedPrecondition`, and the row stays
cancelled across the operation. -/
theorem c6_cancel_terminal_witness :
    findReservation stCap1C 1 = some resAC ∧
    resAC.status = "cancelled" ∧ "A" = resAC.userId ∧
    cancelReservation stCap1C 1 "A" false =
      (Except.error ErrCode.failedPrecondition, stCap1C) ∧
    WF stCap1C ∧ resAC ∈ stCap1C.reservations ∧
    resAC ∈ (step stCap1C (Op.cancelReservation 1 "A" false)).reservations ∧
    resAC.status = "cancelled" := by
  refine ⟨by decide, by decide, by decide, ?_, by decide, by decide,
    by decide, ?_⟩
  · exact c6_cancel_terminal.1 stCap1C 1 "A" false resAC (by decide)
      (by decide) (Or.inl (by decide))
  · exact c6_cancel_terminal.2 stCap1C (Op.cancelReservation 1 "A" false)
      resAC (by decide) (by decide) (by decide) resAC (by decide) rfl

/-- Claim C7: updating a session with a capacity strictly below its
current `reserved_count` fails with `FailedPrecondition` and returns the
store unchanged, so no field of any session is modified. -/
theorem c7_capacity_shrink_guard (st : Store) (now : String) (sid : Nat)
    (u : UpdateSessionRequest) (s : Session) (newCap : Int)
    (hf : findSession st sid = some s) (hcap : u.capacity = some newCap)
    (hlt : newCap < s.reservedSpots) :
    updateSession st now sid u =
      (Except.error ErrCode.failedPrecondition, st) := by
  unfold updateSession
  rw [hf]
  have hguard : decide (u.capacity.getD s.capacity < s.reservedSpots)
      = true := by
    rw [hcap]
    simpa using hlt
  simp only [hguard, if_true]

/-- Witness for C7: shrinking the full capacity-1 session to capacity 0
fails with `FailedPrecondition` and changes nothing. -/
theorem c7_capacity_shrink_guard_witness :
    findSession stCap1A 1 = some sessA1 ∧
    updCap0.capacity = some 0 ∧ (0 : Int) < sessA1.reservedSpots ∧
    updateSession stCap1A t0 1 updCap0 =
      (Except.error ErrCode.failedPrecondition, stCap1A) :=
  ⟨by decide, rfl, by decide,
    c7_capacity_shrink_guard stCap1A t0 1 updCap0 sessA1 0 (by decide) rfl
      (by decide)⟩

/-- Claim C8: every request passing `CreateSession`'s validation persists
one new session row and echoes it back: the row carries the server-assigned
id and the creation/update timestamps, its reserved count is 0, and every
submitted field is returned unchanged. -/
theorem c8_create_session_valid (st : Store) (now : String)
    (req : CreateSessionRequest) (hv : invalidCreateSession req = false) :
    createSession st now req =
      (Except.ok (newSessionRow st now req),
        { st with sessions := st.sessions ++ [newSessionRow st now req],
                  nextSessionId := st.nextSessionId + 1 }) ∧
    (newSessionRow st now req).id = st.nextSessionId ∧
    (newSessionRow st now req).reservedSpots = 0 ∧
    (newSessionRow st now req).createdAt = now ∧
    (newSessionRow st now req).updatedAt = now ∧
    (newSessionRow st now req).title = req.title ∧
    (newSessionRow st now req).description = req.description ∧
    (newSessionRow st now req).coachId = req.coachId ∧
    (newSessionRow st now req).capacity = req.capacity ∧
    (newSessionRow st now req).startTime = req.startTime ∧
    (newSessionRow st now req).endTime = req.endTime ∧
    (newSessionRow st now req).location = req.location ∧
    (newSessionRow st now req).sessionType = req.sessionType ∧
    (newSessionRow st now req).difficultyLevel = req.difficultyLevel := by
  refine ⟨?_, rfl, rfl, rfl, rfl, rfl, rfl, rfl, rfl, rfl, rfl, rfl, rfl,
    rfl⟩
  unfold createSession newSessionRow
  simp only [hv, Bool.false_eq_true, if_false]

/-- Witness for C8: the valid capacity-1 request is accepted and persisted
with reserved count 0. -/
theorem c8_create_session_valid_witness :
    invalidCreateSession reqCap1 = false ∧
    createSession emptyStore t0 reqCap1 =
      (Except.ok (newSessionRow emptyStore t0 reqCap1),
        { emptyStore with
            sessions := emptyStore.sessions ++
              [newSessionRow emptyStore t0 reqCap1],
            nextSessionId := emptyStore.nextSessionId + 1 }) ∧
    (newSessionRow emptyStore t0 reqCap1).reservedSpots = 0 ∧
    (newSessionRow emptyStore t0 reqCap1).id = 1 :=
  ⟨by decide,
    (c8_create_session_valid emptyStore t0 reqCap1 (by decide)).1,
    (c8_create_session_valid emptyStore t0 reqCap1 (by decide)).2.2.1,
    by decide⟩

/-- Claim C9: the schema's `UNIQUE(session_id, user_id)` constraint rejects
a new reservation row whenever any row for the pair exists, regardless of
that row's status — in particular a cancelled row blocks the pair until it
is deleted. -/
theorem c9_unique_pair_blocks (st : Store) (t r : Reservation)
    (hmem : t ∈ st.reservations) (hsid : t.sessionId = r.sessionId)
    (huid : t.userId = r.userId) :
    insertReservationRow st r = none := by
  unfold insertReservationRow
  have hany : (st.reservations.any fun t2 =>
      t2.sessionId == r.sessionId && t2.userId == r.userId) = true := by
    rw [List.any_eq_true]
    exact ⟨t, hmem, by simp [hsid, huid]⟩
  simp [hany]

/-- Witness for C9: in the store where user A's reservation is cancelled,
inserting a fresh row for the same (session, user) pair is rejected. -/
theorem c9_unique_pair_blocks_witness :
    resAC ∈ stCap1C.reservations ∧ resAC.status = "cancelled" ∧
    resAC.sessionId = resANew.sessionId ∧ resAC.userId = resANew.userId ∧
    insertReservationRow stCap1C resANew = none :=
  ⟨by decide, by decide, by decide, by decide,
    c9_unique_pair_blocks stCap1C resAC resANew (by decide) (by decide)
      (by decide)⟩

/-- Claim C10: whatever `coach_id` the request carries, the session is
persisted and returned with `coach_name` equal to the constant string
`"Coach Name"`. -/
theorem c10_coach_name_constant (st : Store) (now : String)
    (req : CreateSessionRequest) (s : Session) (st2 : Store)
    (h : createSession st now req = (Except.ok s, st2)) :
    s.coachName = "Coach Name" ∧ st2.sessions = st.sessions ++ [s] := by
  unfold createSession at h
  by_cases hv : invalidCreateSession req = true
  · rw [hv] at h
    simp at h
  · rw [Bool.not_eq_true] at hv
    simp only [hv, Bool.false_eq_true, if_false, Prod.mk.injEq,
      Except.ok.injEq] at h
    obtain ⟨hs, hst2⟩ := h
    subst hs
    subst hst2
    exact ⟨rfl, rfl⟩

/-- Witness for C10: the concrete request with `coach_id = "coach-1"`
yields a session displaying the constant coach name. -/
theorem c10_coach_name_constant_witness :
    createSession emptyStore t0 reqCap1 =
      (Except.ok (newSessionRow emptyStore t0 reqCap1), stCap1) ∧
    (newSessionRow emptyStore t0 reqCap1).coachName = "Coach Name" ∧
    stCap1.sessions = emptyStore.sessions ++
      [newSessionRow emptyStore t0 reqCap1] := by
  have h : createSession emptyStore t0 reqCap1 =
      (Except.ok (newSessionRow emptyStore t0 reqCap1), stCap1) := by
    decide
  exact ⟨h, (c10_coach_name_constant emptyStore t0 reqCap1 _ _ h).1,
    (c10_coach_name_constant emptyStore t0 reqCap1 _ _ h).2⟩

/-- Claim C3 (evaluated at its failing input): in the capacity-15
scenario, user A's first reservation succeeds, the duplicate attempt fails
with `AlreadyExists`, the cancellation succeeds and returns the session's
`reserved_count` to 0 — but the subsequent `CreateReservation` by the same
user for the same session does NOT succeed: the application-level checks
pass, and the insert is then rejected by the store's unconditional
`UNIQUE(session_id, user_id)` constraint, because the cancelled row is
still present; the operation surfaces a storage error instead of creating
a new confirmed reservation. -/
theorem c3_cancelled_blocks_rereservation :
    (createReservation c3St1 t0 1 "A" "Ann").1 = Except.ok resA ∧
    (createReservation c3St2 t0 1 "A" "Ann").1 =
      Except.error ErrCode.alreadyExists ∧
    (cancelReservation c3St2 1 "A" false).1 = Except.ok () ∧
    (findSession c3St3 1).map Session.reservedSpots = some 0 ∧
    hasActive c3St3 1 "A" = false ∧
    findSession c3St3 1 = some (sess15AfterCancel) ∧
    sess15AfterCancel.reservedSpots < sess15AfterCancel.capacity ∧
    createReservation c3St3 t0 1 "A" "Ann" =
      (Except.error ErrCode.internal, c3St3) := by
  refine ⟨by decide, by decide, by decide, by decide, by decide, by decide,
    by decide, by decide⟩

/-- Claim C4 counterexample: a request whose end time is not strictly
after its start time (here equal), with all other fields valid, is NOT
rejected with `InvalidArgument` — `CreateSession` never compares the two
timestamps — and a session IS persisted. -/
theorem c4_no_time_order_check :
    reqBadTimes.endTime = reqBadTimes.startTime ∧
    invalidCreateSession reqBadTimes = false ∧
    (createSession emptyStore t0 reqBadTimes).1 ≠
      Except.error ErrCode.invalidArgument ∧
    (createSession emptyStore t0 reqBadTimes).2.sessions.length = 1 := by
  refine ⟨by decide, by decide, by decide, by decide⟩

/-- Claim C4 as amended: a `CreateSession` request with an empty required
field (title, coach id, start, end, location, type or difficulty) or a
capacity below 1 fails with `InvalidArgument` and persists nothing; the
relative order of start and end times is not validated. -/
theorem c4_validation_amended (st : Store) (now : String)
    (req : CreateSessionRequest)
    (h : req.title = "" ∨ req.coachId = "" ∨ req.capacity < 1 ∨
      req.startTime = "" ∨ req.endTime = "" ∨ req.location = "" ∨
      req.sessionType = "" ∨ req.difficultyLevel = "") :
    createSession st now req =
      (Except.error ErrCode.invalidArgument, st) := by
  have hv : invalidCreateSession req = true := by
    unfold invalidCreateSession
    rcases h with h | h | h | h | h | h | h | h <;> simp [h]
  unfold createSession
  simp [hv]

/-- Witness for the amended C4: the zero-capacity request is rejected with
`InvalidArgument` and the store is unchanged. -/
theorem c4_validation_amended_witness :
    reqCap0.capacity < 1 ∧
    createSession emptyStore t0 reqCap0 =
      (Except.error ErrCode.invalidArgument, emptyStore) :=
  ⟨by decide,
    c4_validation_amended emptyStore t0 reqCap0
      (Or.inr (Or.inr (Or.inl (by decide))))⟩

/-- Claim C5 counterexample: the gateway's `handleGrpcError` sends
`InvalidArgument` to 500, not 400, and `ResourceExhausted` to 500, not 409
or 429. -/
theorem c5_gateway_mapping_incomplete :
    (handleGrpcError ErrCode.invalidArgument "bad").1 = 500 ∧
    (handleGrpcError ErrCode.invalidArgument "bad").1 ≠ 400 ∧
    (handleGrpcError ErrCode.resourceExhausted "full").1 = 500 ∧
    (handleGrpcError ErrCode.resourceExhausted "full").1 ≠ 409 ∧
    (handleGrpcError ErrCode.resourceExhausted "full").1 ≠ 429 := by
  refine ⟨by decide, by decide, by decide, by decide, by decide⟩

/-- Claim C5 as amended: the gateway maps `NotFound` to 404,
`AlreadyExists` to 409 and `PermissionDenied` to 403 as designated, while
`InvalidArgument`, `ResourceExhausted`, `FailedPrecondition` and
`Internal` all fall through to 500. -/
theorem c5_gateway_mapping_amended (msg : String) :
    (handleGrpcError ErrCode.notFound msg).1 = 404 ∧
    (handleGrpcError ErrCode.alreadyExists msg).1 = 409 ∧
    (handleGrpcError ErrCode.permissionDenied msg).1 = 403 ∧
    (handleGrpcError ErrCode.invalidArgument msg).1 = 500 ∧
    (handleGrpcError ErrCode.resourceExhausted msg).1 = 500 ∧
    (handleGrpcError ErrCode.failedPrecondition msg).1 = 500 ∧
    (handleGrpcError ErrCode.internal msg).1 = 500 :=
  ⟨rfl, rfl, rfl, rfl, rfl, rfl, rfl⟩

end GymSpec
